import Mathlib

/-
  Verification of the ReconAI Scan Orchestration and Caching Subsystem
  (src/recon_server.py) against its natural-language specification.

  The Python code is shallowly embedded: pure fragments become Lean
  functions, the behaviour of the operating system (external processes,
  the clock) is passed in explicitly as data, and the stateful cache and
  job registry are modelled by explicit state passing or by a small-step
  relation. Timestamps are modelled as natural numbers.
-/

set_option autoImplicit false

/- ====================================================================
   Command Runner (recon_server.py, CommandExecutor.execute, lines 68-140)
   ==================================================================== -/

/-- The possible behaviours of the operating system for one attempt to run
an external process: normal completion with captured output and exit code,
expiry of the wall-clock timeout with output captured so far, an
unresolvable program name (Python FileNotFoundError), or any other
OS-level failure carrying its message. This is the oracle parameter of the
embedding of subprocess execution. -/
inductive ProcBehavior where
  | completes (stdout stderr : String) (exit_code : Int) (elapsed : Nat)
  | timesOut (outSoFar errSoFar : String)
  | notFound
  | osError (msg : String) (elapsed : Nat)
deriving DecidableEq

/-- The result dictionary built by CommandExecutor.execute. The keys
success, stdout, stderr, exit_code, execution_time and command are present
in every branch of the source; the keys timeout, not_found and error are
only added by their branches, which is modelled by default values false
and none. The spec names the flags timed_out and not_found. -/
structure ExecResult where
  success : Bool
  stdout : String
  stderr : String
  exit_code : Int
  execution_time : Nat
  command : String
  timeout : Bool := false
  not_found : Bool := false
  error : Option String := none
deriving DecidableEq

/-- CommandExecutor.execute (lines 68-140). Total by construction: every
branch of the Python try/except returns a dictionary, and the embedding
returns an ExecResult for every ProcBehavior, which is how the
never-raises guarantee of the source is expressed. -/
def CommandExecutor.execute (command : List String) (timeout : Nat)
    (b : ProcBehavior) : ExecResult :=
  match b with
  | .completes out err code elapsed =>
      { success := code == 0, stdout := out, stderr := err,
        exit_code := code, execution_time := elapsed,
        command := String.intercalate " " command }
  | .timesOut outSoFar _ =>
      { success := false, stdout := outSoFar,
        stderr := "Command timed out after " ++ toString timeout ++ " seconds",
        exit_code := -1, execution_time := timeout,
        command := String.intercalate " " command, timeout := true }
  | .notFound =>
      { success := false, stdout := "",
        stderr := "Command not found: " ++ command.headD "",
        exit_code := -1, execution_time := 0,
        command := String.intercalate " " command, not_found := true }
  | .osError msg elapsed =>
      { success := false, stdout := "", stderr := msg,
        exit_code := -1, execution_time := elapsed,
        command := String.intercalate " " command, error := some msg }

/- ====================================================================
   Python string primitives
   The source manipulates str values with startswith, split, strip and
   replace. These are modelled as structurally recursive functions on the
   character list of the string, so that every definition evaluates
   inside the kernel on concrete inputs.
   ==================================================================== -/

/-- Character-list version of Python str.startswith. -/
def charsStartWith : List Char → List Char → Bool
  | _, [] => true
  | [], _ :: _ => false
  | c :: cs, p :: ps => c == p && charsStartWith cs ps

/-- Python str.startswith with a plain string argument. -/
def pyStartswith (s pre : String) : Bool :=
  charsStartWith s.data pre.data

/-- Tokenizer for Python str.split with no separator: runs of whitespace
separate tokens and empty tokens are dropped. The second argument is the
reversed current token. -/
def tokenizeWs : List Char → List Char → List String
  | [], acc => if acc.isEmpty then [] else [String.mk acc.reverse]
  | c :: cs, acc =>
      if c.isWhitespace then
        if acc.isEmpty then tokenizeWs cs []
        else String.mk acc.reverse :: tokenizeWs cs []
      else tokenizeWs cs (c :: acc)

/-- Python str.split with no separator. -/
def pySplitWs (s : String) : List String :=
  tokenizeWs s.data []

/-- Splitting a character list at every occurrence of one separator
character, keeping empty pieces, like Python str.split with an explicit
one-character separator. -/
def splitOnChar (sep : Char) : List Char → List (List Char)
  | [] => [[]]
  | c :: cs =>
      if c == sep then [] :: splitOnChar sep cs
      else
        match splitOnChar sep cs with
        | [] => [[c]]
        | t :: ts => (c :: t) :: ts

/-- Python str.split with the newline separator, as used on tool output. -/
def pySplitLines (s : String) : List String :=
  (splitOnChar (Char.ofNat 10) s.data).map String.mk

/-- Python str.strip with no argument: remove leading and trailing
whitespace. -/
def pyStrip (s : String) : String :=
  String.mk (((s.data.dropWhile Char.isWhitespace).reverse.dropWhile
    Char.isWhitespace).reverse)

/-- Fuelled worker for Python str.replace: at every position, when the
remaining text starts with the non-empty pattern, emit the replacement
and skip the pattern, else keep one character. The fuel is the length of
the text, enough because every step consumes at least one character; it
only makes the recursion structural. -/
def replaceAuxChars (old new : List Char) : Nat → List Char → List Char
  | 0, l => l
  | fuel + 1, l =>
      match l with
      | [] => []
      | c :: cs =>
          if charsStartWith l old && !old.isEmpty then
            new ++ replaceAuxChars old new fuel (l.drop old.length)
          else c :: replaceAuxChars old new fuel cs

/-- Python str.replace: replace every occurrence of old by new. -/
def pyReplace (s old new : String) : String :=
  String.mk (replaceAuxChars old.data new.data s.data.length s.data)

/- ====================================================================
   Result Cache (recon_server.py, CacheManager, lines 143-190)
   ==================================================================== -/

/-- One entry of the Python dict CacheManager.cache: the stored result
together with the timestamp of the store. -/
structure CacheEntry (α : Type) where
  result : α
  timestamp : Nat
deriving DecidableEq

/-- Association-list lookup, modelling Python dict read (one binding per
key is maintained by assocInsert). -/
def assocLookup {β : Type} (k : String) : List (String × β) → Option β
  | [] => none
  | (k2, v) :: rest => if k2 = k then some v else assocLookup k rest

/-- Removal of a key, modelling Python del. -/
def assocErase {β : Type} (k : String) (l : List (String × β)) :
    List (String × β) :=
  l.filter (fun p => p.1 ≠ k)

/-- Overwriting insertion, modelling Python dict assignment. -/
def assocInsert {β : Type} (k : String) (v : β) (l : List (String × β)) :
    List (String × β) :=
  (k, v) :: assocErase k l

/-- CacheManager state: the cache dict and the configured ttl. The value
type is a parameter because the adapters store their own result shapes. -/
structure CacheManager (α : Type) where
  cache : List (String × CacheEntry α)
  ttl : Nat
deriving DecidableEq

/-- CacheManager.get_key (lines 150-152): the md5 hexdigest of the tokens
joined with single spaces. The fixed-width hash is abstracted to the
canonical string itself, i.e. to injective content keying; the design
treats hash collisions as an accepted risk below this model. -/
def CacheManager.get_key (command : List String) : String :=
  String.intercalate " " command

/-- CacheManager.get (lines 154-169). Python mutates self on expiry
(del self.cache[key]); the embedding returns the looked-up value together
with the successor cache state. The query time is the now parameter. -/
def CacheManager.get {α : Type} (m : CacheManager α) (command : List String)
    (now : Nat) : Option α × CacheManager α :=
  let key := CacheManager.get_key command
  match assocLookup key m.cache with
  | some cached_data =>
      if now - cached_data.timestamp < m.ttl then
        (some cached_data.result, m)
      else
        (none, { m with cache := assocErase key m.cache })
  | none => (none, m)

/-- CacheManager.set (lines 171-178): store the result under the key of
the command with the store time as timestamp, overwriting any previous
binding. -/
def CacheManager.set {α : Type} (m : CacheManager α) (command : List String)
    (result : α) (now : Nat) : CacheManager α :=
  { m with cache := assocInsert (CacheManager.get_key command) ⟨result, now⟩ m.cache }

/- ====================================================================
   DNS lookup (recon_server.py, ReconTools.dns_info, lines 528-555)
   ==================================================================== -/

/-- The record types queried by dns_info, in source order (line 543). -/
def record_types : List String := ["A", "AAAA", "MX", "NS", "TXT", "CNAME"]

/-- The dictionary returned by dns_info: the top-level success flag set on
line 537, the domain, and the records dict in insertion order. -/
structure DnsResult where
  success : Bool
  domain : String
  records : List (String × String)
deriving DecidableEq

/-- ReconTools.dns_info (lines 528-555). For each record type it invokes
CommandExecutor.execute on a nslookup command with timeout 10 and stores
the stdout under the type when the execution succeeded. The except branch
of the source (line 552), which would store an error string under the
type, is unreachable: execute catches every failure and returns a result
dictionary instead of raising, so the embedding has no error-string path
and a failed record type is simply not added. The env parameter is the
OS-behaviour oracle for each sub-invocation, keyed by record type. -/
def ReconTools.dns_info (domain : String) (env : String → ProcBehavior) : DnsResult :=
  { success := true
    domain := domain
    records := record_types.foldl (fun acc rt =>
      let r := CommandExecutor.execute ["nslookup", "-type=" ++ rt, domain] 10 (env rt)
      if r.success then acc ++ [(rt, r.stdout)] else acc) [] }

/-- A concrete environment in which the sub-invocation for record type A
fails (program name unresolvable) and every other record type succeeds. -/
def dnsEnvAFails : String → ProcBehavior := fun rt =>
  if rt = "A" then ProcBehavior.notFound
  else ProcBehavior.completes ("answer for " ++ rt) "" 0 1

/- ====================================================================
   Gobuster output parser (ReconTools._parse_gobuster_output, lines 349-376)
   ==================================================================== -/

/-- One element of found_paths: the dict appended on lines 370-374. -/
structure GobusterEntry where
  path : String
  status : Option String
  line : String
deriving DecidableEq

/-- The parsed dict of _parse_gobuster_output: found_paths, and the
status_codes defaultdict modelled as the multiset (list) of tallied
status-code strings, whose counts are the dict values. -/
structure GobusterParsed where
  found_paths : List GobusterEntry
  status_codes : List String
deriving DecidableEq

/-- One iteration of the line loop of _parse_gobuster_output
(lines 359-374): a line contributes only when it begins with a slash or
with http and splits into at least two whitespace tokens; the status is
the second token when that token begins with the literal text, and the
tallied code is that token with the literal text and every closing
parenthesis removed. -/
def gobusterLineStep (acc : GobusterParsed) (line : String) : GobusterParsed :=
  if pyStartswith line "/" || pyStartswith line "http" then
    let parts := pySplitWs line
    if parts.length ≥ 2 then
      let path := parts.getD 0 ""
      let second := parts.getD 1 ""
      let status := if pyStartswith second "(Status:" then some second else none
      { found_paths := acc.found_paths ++ [⟨path, status, pyStrip line⟩]
        status_codes := acc.status_codes ++
          (match status with
           | some s => [pyReplace (pyReplace s "(Status:" "") ")" ""]
           | none => []) }
    else acc
  else acc

/-- ReconTools._parse_gobuster_output (lines 349-376): fold the line step
over the newline-split output, starting from empty collections. -/
def ReconTools.parse_gobuster_output (output : String) : GobusterParsed :=
  (pySplitLines output).foldl gobusterLineStep ⟨[], []⟩

/-- Per-line contribution to found_paths, used to characterize the parser
in closed form. -/
def gobusterLineEntry (line : String) : Option GobusterEntry :=
  if pyStartswith line "/" || pyStartswith line "http" then
    let parts := pySplitWs line
    if parts.length ≥ 2 then
      let second := parts.getD 1 ""
      some ⟨parts.getD 0 "",
            if pyStartswith second "(Status:" then some second else none,
            pyStrip line⟩
    else none
  else none

/-- Per-line contribution to the status-code tally, used to characterize
the parser in closed form. -/
def gobusterLineCode (line : String) : Option String :=
  if pyStartswith line "/" || pyStartswith line "http" then
    let parts := pySplitWs line
    if parts.length ≥ 2 then
      let second := parts.getD 1 ""
      if pyStartswith second "(Status:" then
        some (pyReplace (pyReplace second "(Status:" "") ")" "")
      else none
    else none
  else none

/- ====================================================================
   Comprehensive scan pipeline (run_comprehensive_scan, lines 1257-1302)
   ==================================================================== -/

/-- The parsed field of a subfinder result (lines 411-415). The dict is
non-empty whenever present, so Python truthiness of parsed coincides with
presence. -/
structure SubfinderParsed where
  subdomains : List String
  count : Nat
deriving DecidableEq

/-- The slice of a subfinder tool result read by the pipeline: the
success flag and the optional parsed field. -/
structure SubfinderResult where
  success : Bool
  parsed : Option SubfinderParsed
deriving DecidableEq

/-- Oracle for the tool invocations made by the pipeline. The payloads of
the nmap, dns, gobuster and httpx steps are opaque to the pipeline logic
and modelled as strings; httpxOut is keyed by the probed target list so
that theorems can speak about which targets were probed. -/
structure ToolEnv where
  nmapOut : String
  dnsOut : String
  gobusterOut : String
  subfinderOut : SubfinderResult
  httpxOut : List String → String

/-- The results dict built by run_comprehensive_scan, with one optional
field per tool key that the pipeline may add. -/
structure ScanResultsRec where
  nmap : Option String := none
  dns : Option String := none
  gobuster : Option String := none
  subfinder : Option SubfinderResult := none
  httpx : Option String := none
deriving DecidableEq

/-- run_comprehensive_scan (lines 1257-1302), the tool-selection logic:
nmap when requested; dns when requested; gobuster when requested and the
target starts with the literal http scheme prefixes (line 1276);
subfinder when requested and the target does not start with http
(line 1281); and, inside the subfinder branch, an automatic httpx probe
of the first 50 discovered subdomains when the subfinder result has
success and a truthy parsed field and a non-empty subdomain list
(lines 1287-1291). -/
def run_comprehensive_scan (target : String) (scan_types : List String)
    (env : ToolEnv) : ScanResultsRec :=
  let r : ScanResultsRec := {}
  let r := if scan_types.contains "nmap" then { r with nmap := some env.nmapOut } else r
  let r := if scan_types.contains "dns" then { r with dns := some env.dnsOut } else r
  let r := if scan_types.contains "gobuster" &&
              (pyStartswith target "http://" || pyStartswith target "https://") then
    { r with gobuster := some env.gobusterOut } else r
  if scan_types.contains "subfinder" && !(pyStartswith target "http") then
    let sf := env.subfinderOut
    let r := { r with subfinder := some sf }
    match sf.parsed with
    | some p =>
        if sf.success && !p.subdomains.isEmpty then
          { r with httpx := some (env.httpxOut (p.subdomains.take 50)) }
        else r
    | none => r
  else r

/-- A concrete tool environment used by counterexamples and witnesses. -/
def toolEnvEx : ToolEnv :=
  { nmapOut := "nmap-output"
    dnsOut := "dns-output"
    gobusterOut := "gobuster-output"
    subfinderOut := { success := true,
                      parsed := some ⟨["a.example.com", "b.example.com"], 2⟩ }
    httpxOut := fun targets => "probed:" ++ String.intercalate "," targets }

/- ====================================================================
   Adapter cache consultation (ReconTools.nmap_scan, lines 244-248)
   ==================================================================== -/

/-- The nmap tool result dict: the executor fields plus the optional
parsed field (payload opaque here) and the cached flag, which is absent
(false) until the adapter sets it. -/
structure NmapToolResult where
  success : Bool
  stdout : String
  stderr : String
  exit_code : Int
  command : String
  parsed : Option String := none
  cached : Bool := false
deriving DecidableEq

/-- Replace the stored result under the key of the command, keeping the
stored timestamp: this models a Python in-place mutation of the result
dict reaching the cache through the reference the cache still holds. -/
def cacheWriteThrough {α : Type} (m : CacheManager α) (command : List String)
    (r : α) : CacheManager α :=
  { m with cache := m.cache.map (fun p =>
      if p.1 = CacheManager.get_key command then (p.1, ⟨r, p.2.timestamp⟩) else p) }

/-- The cache consultation of ReconTools.nmap_scan (lines 244-248): on a
hit the adapter sets cached = True on the returned dict and returns it.
The cache entry holds a reference to that same dict, so the assignment
also mutates the stored entry; the embedding makes the aliasing explicit
by writing the updated value back through cacheWriteThrough. -/
def nmapCheckCache (m : CacheManager NmapToolResult) (command : List String)
    (now : Nat) : Option NmapToolResult × CacheManager NmapToolResult :=
  match CacheManager.get m command now with
  | (some r0, m2) =>
      let hit := { r0 with cached := true }
      (some hit, cacheWriteThrough m2 command hit)
  | (none, m2) => (none, m2)

/-- A concrete stored nmap result, as first produced (cached flag absent,
modelled false). -/
def sampleNmapResult : NmapToolResult :=
  { success := true, stdout := "scan output", stderr := "",
    exit_code := 0, command := "nmap -T4 -F example.com" }

/- ====================================================================
   Job registry state machine (lines 1249-1254, 1297-1300, 1320-1349)
   ==================================================================== -/

/-- The status values a comprehensive-scan job passes through. -/
inductive JobStatus where
  | running
  | completed
deriving DecidableEq

/-- The observable registry state of one job: its ACTIVE_SCANS status and
whether SCAN_RESULTS holds its aggregate. -/
structure JobState where
  status : JobStatus
  resultStored : Bool
deriving DecidableEq

/-- The two registry writes that finish run_comprehensive_scan, in source
order (lines 1297-1300): first SCAN_RESULTS[scan_id] = results stores the
aggregate, then ACTIVE_SCANS[scan_id] status is set to completed in a
separate statement. Endpoint readers (lines 1320-1349) may observe the
state between the two writes, which is why each write is one step. -/
inductive JobStep : JobState → JobState → Prop where
  | storeAggregate : JobStep ⟨JobStatus.running, false⟩ ⟨JobStatus.running, true⟩
  | markCompleted : JobStep ⟨JobStatus.running, true⟩ ⟨JobStatus.completed, true⟩

/-- Registry states reachable from job creation (lines 1249-1254 create
the job with status running and no stored aggregate). -/
inductive JobReachable : JobState → Prop where
  | init : JobReachable ⟨JobStatus.running, false⟩
  | step {s s2 : JobState} : JobReachable s → JobStep s s2 → JobReachable s2

/- ====================================================================
   Helper lemmas for the association list
   ==================================================================== -/

theorem assocLookup_insert_self {β : Type} (k : String) (v : β)
    (l : List (String × β)) : assocLookup k (assocInsert k v l) = some v := by
  simp [assocInsert, assocLookup]

theorem assocErase_cons {β : Type} (k : String) (p : String × β)
    (l : List (String × β)) :
    assocErase k (p :: l) =
      if p.1 = k then assocErase k l else p :: assocErase k l := by
  by_cases hp : p.1 = k <;> simp [assocErase, List.filter_cons, hp]

theorem assocLookup_erase_self {β : Type} (k : String)
    (l : List (String × β)) : assocLookup k (assocErase k l) = none := by
  induction l with
  | nil => rfl
  | cons p rest ih =>
      rw [assocErase_cons]
      by_cases hp : p.1 = k
      · simpa [hp] using ih
      · simp [assocLookup, hp, ih]

theorem assocLookup_erase_ne {β : Type} (k k2 : String) (h : k ≠ k2)
    (l : List (String × β)) : assocLookup k2 (assocErase k l) = assocLookup k2 l := by
  induction l with
  | nil => rfl
  | cons p rest ih =>
      rw [assocErase_cons]
      by_cases hp : p.1 = k
      · have hq : p.1 ≠ k2 := by rw [hp]; exact h
        simp [assocLookup, hp, h, ih]
      · simp [assocLookup, hp, ih]

theorem assocLookup_insert_ne {β : Type} (k k2 : String) (v : β) (h : k ≠ k2)
    (l : List (String × β)) :
    assocLookup k2 (assocInsert k v l) = assocLookup k2 l := by
  simp [assocInsert, assocLookup, h, assocLookup_erase_ne k k2 h l]

/- ====================================================================
   Claim theorems
   ==================================================================== -/

/-- Claim C1: for every command token list, every timeout value and every
behaviour of the operating system, CommandExecutor.execute returns a
complete ExecResult (it is a total function, so no exception reaches the
caller); on timeout the result has timeout true, success false and
exit_code -1; on an unresolvable program name it has not_found true,
success false and exit_code -1; and any other OS-level failure yields
success false with the error text in stderr. -/
theorem execute_total_failure_classification (command : List String) (t : Nat) :
    (∀ outSoFar errSoFar,
      (CommandExecutor.execute command t (ProcBehavior.timesOut outSoFar errSoFar)).timeout = true ∧
      (CommandExecutor.execute command t (ProcBehavior.timesOut outSoFar errSoFar)).success = false ∧
      (CommandExecutor.execute command t (ProcBehavior.timesOut outSoFar errSoFar)).exit_code = -1) ∧
    ((CommandExecutor.execute command t ProcBehavior.notFound).not_found = true ∧
     (CommandExecutor.execute command t ProcBehavior.notFound).success = false ∧
     (CommandExecutor.execute command t ProcBehavior.notFound).exit_code = -1) ∧
    (∀ msg elapsed,
      (CommandExecutor.execute command t (ProcBehavior.osError msg elapsed)).success = false ∧
      (CommandExecutor.execute command t (ProcBehavior.osError msg elapsed)).stderr = msg) := by
  exact ⟨fun _ _ => ⟨rfl, rfl, rfl⟩, ⟨rfl, rfl, rfl⟩, fun _ _ => ⟨rfl, rfl⟩⟩

/-- Claim C2: an entry stored at time T is returned by a lookup of the
same command at every query time in the interval from T inclusive to
T plus ttl exclusive, and a lookup at any query time at or past T plus
ttl returns absent and removes the entry from the cache. -/
theorem cache_ttl_window {α : Type} (m : CacheManager α) (command : List String)
    (r : α) (T now : Nat) :
    (T ≤ now → now < T + m.ttl →
      (CacheManager.get (CacheManager.set m command r T) command now).1 = some r) ∧
    (T + m.ttl ≤ now →
      (CacheManager.get (CacheManager.set m command r T) command now).1 = none ∧
      assocLookup (CacheManager.get_key command)
        (CacheManager.get (CacheManager.set m command r T) command now).2.cache = none) := by
  constructor
  · intro h1 h2
    have hlt : now - T < m.ttl := by omega
    simp [CacheManager.get, CacheManager.set, assocLookup_insert_self, hlt]
  · intro h
    have hge : ¬ now - T < m.ttl := by omega
    constructor
    · simp [CacheManager.get, CacheManager.set, assocLookup_insert_self, hge]
    · simp [CacheManager.get, CacheManager.set, assocLookup_insert_self, hge,
        assocLookup_erase_self]

/-- Witness for cache_ttl_window at a concrete cache: a value stored at
time 100 with ttl 10 is still returned at time 105 and is absent at
time 110. -/
theorem cache_ttl_window_witness :
    (CacheManager.get (CacheManager.set ({ cache := [], ttl := 10 } : CacheManager Nat)
        ["echo", "hi"] 7 100) ["echo", "hi"] 105).1 = some 7 ∧
    (CacheManager.get (CacheManager.set ({ cache := [], ttl := 10 } : CacheManager Nat)
        ["echo", "hi"] 7 100) ["echo", "hi"] 110).1 = none := by
  exact ⟨(cache_ttl_window _ _ _ _ _).1 (by omega) (by norm_num),
         ((cache_ttl_window _ _ _ _ _).2 (by norm_num)).1⟩

/-- Claim C3: two command token lists whose space-joined canonical strings
agree share the cache entry, so a store under the first followed by an
in-ttl lookup under the second returns the stored result, whatever that
result is; and a store under a command whose canonical string differs
from that of the looked-up command leaves that lookup unchanged, so
distinct canonical strings never share an entry. The md5 content hash of
the source is abstracted to injective keying on the canonical string. -/
theorem cache_canonical_key_determinism {α : Type} (m : CacheManager α)
    (c1 c2 : List String) (r : α) (T now : Nat) :
    (String.intercalate " " c1 = String.intercalate " " c2 →
      now - T < m.ttl →
      (CacheManager.get (CacheManager.set m c1 r T) c2 now).1 = some r) ∧
    (String.intercalate " " c1 ≠ String.intercalate " " c2 →
      (CacheManager.get (CacheManager.set m c1 r T) c2 now).1 =
        (CacheManager.get m c2 now).1) := by
  constructor
  · intro hkey hlt
    have hk : CacheManager.get_key c1 = CacheManager.get_key c2 := hkey
    simp [CacheManager.get, CacheManager.set, ← hk, assocLookup_insert_self, hlt]
  · intro hne
    have hk : CacheManager.get_key c1 ≠ CacheManager.get_key c2 := hne
    cases hcase : assocLookup (CacheManager.get_key c2) m.cache with
    | none =>
        simp [CacheManager.get, CacheManager.set,
          assocLookup_insert_ne _ _ _ hk, hcase]
    | some cd =>
        by_cases hlt : now - cd.timestamp < m.ttl <;>
          simp [CacheManager.get, CacheManager.set,
            assocLookup_insert_ne _ _ _ hk, hcase, hlt]

/-- Witness for cache_canonical_key_determinism: the token lists
["a", "b"] and ["a b"] have the same canonical string, so the second is a
cache hit after a store of the first; ["a"] and ["b"] differ, so a store
of the first leaves a lookup of the second absent on an empty cache. -/
theorem cache_canonical_key_determinism_witness :
    (CacheManager.get (CacheManager.set ({ cache := [], ttl := 10 } : CacheManager Nat)
        ["a", "b"] 5 0) ["a b"] 3).1 = some 5 ∧
    (CacheManager.get (CacheManager.set ({ cache := [], ttl := 10 } : CacheManager Nat)
        ["a"] 5 0) ["b"] 3).1 =
      (CacheManager.get ({ cache := [], ttl := 10 } : CacheManager Nat) ["b"] 3).1 := by
  exact ⟨(cache_canonical_key_determinism _ _ _ _ _ _).1 (by decide) (by norm_num),
         (cache_canonical_key_determinism _ _ _ _ _ _).2 (by decide)⟩

/- ====================================================================
   Fold characterizations for dns_info and the gobuster parser
   ==================================================================== -/

theorem dns_fold_spec (domain : String) (env : String → ProcBehavior)
    (l : List String) (acc : List (String × String)) :
    l.foldl (fun acc rt =>
      let r := CommandExecutor.execute ["nslookup", "-type=" ++ rt, domain] 10 (env rt)
      if r.success then acc ++ [(rt, r.stdout)] else acc) acc =
    acc ++ l.filterMap (fun rt =>
      let r := CommandExecutor.execute ["nslookup", "-type=" ++ rt, domain] 10 (env rt)
      if r.success then some (rt, r.stdout) else none) := by
  induction l generalizing acc with
  | nil => simp
  | cons rt rest ih =>
      by_cases h : (CommandExecutor.execute ["nslookup", "-type=" ++ rt, domain]
          10 (env rt)).success <;>
        simp [h, ih, List.filterMap_cons]

theorem gobuster_step_spec (acc : GobusterParsed) (line : String) :
    (gobusterLineStep acc line).found_paths =
      acc.found_paths ++ (gobusterLineEntry line).toList ∧
    (gobusterLineStep acc line).status_codes =
      acc.status_codes ++ (gobusterLineCode line).toList := by
  unfold gobusterLineStep gobusterLineEntry gobusterLineCode
  by_cases h1 : pyStartswith line "/" || pyStartswith line "http"
  · by_cases h2 : (pySplitWs line).length ≥ 2
    · by_cases h3 : pyStartswith ((pySplitWs line)[1]?.getD "") "(Status:" <;>
        simp [h1, h2, h3]
    · simp [h1, h2]
  · simp [h1]

theorem gobuster_fold_spec (l : List String) (acc : GobusterParsed) :
    (l.foldl gobusterLineStep acc).found_paths =
      acc.found_paths ++ l.filterMap gobusterLineEntry ∧
    (l.foldl gobusterLineStep acc).status_codes =
      acc.status_codes ++ l.filterMap gobusterLineCode := by
  induction l generalizing acc with
  | nil => simp
  | cons line rest ih =>
      have hstep := gobuster_step_spec acc line
      have hrest := ih (gobusterLineStep acc line)
      constructor
      · rw [List.foldl_cons, hrest.1, hstep.1, List.filterMap_cons]
        cases gobusterLineEntry line <;> simp
      · rw [List.foldl_cons, hrest.2, hstep.2, List.filterMap_cons]
        cases gobusterLineCode line <;> simp

/-- Claim C10: for every domain and every behaviour of the per-type
sub-invocations, including universal failure and a missing lookup binary,
dns_info returns a mapping whose top-level success field is True, and the
records mapping holds exactly the record types whose sub-invocation
succeeded, each with its stdout; failed record types are simply absent,
so the success field never reflects any failure. -/
theorem dns_info_success_always (domain : String) (env : String → ProcBehavior) :
    (ReconTools.dns_info domain env).success = true ∧
    (ReconTools.dns_info domain env).records =
      record_types.filterMap (fun rt =>
        let r := CommandExecutor.execute ["nslookup", "-type=" ++ rt, domain] 10 (env rt)
        if r.success then some (rt, r.stdout) else none) := by
  refine ⟨rfl, ?_⟩
  simpa [ReconTools.dns_info] using dns_fold_spec domain env record_types []

/-- Claim C7 (evaluation at the failing input): when the sub-invocation
for record type A fails and every other record type succeeds, dns_info
records no entry at all under A - in particular no error string - while
the remaining record types are still queried and populated and the
top-level success flag stays true. The error-string branch of the source
is unreachable because the executor never raises. -/
theorem dns_failed_type_absent_eval :
    (ReconTools.dns_info "example.com" dnsEnvAFails).success = true ∧
    assocLookup "A" (ReconTools.dns_info "example.com" dnsEnvAFails).records = none ∧
    assocLookup "AAAA" (ReconTools.dns_info "example.com" dnsEnvAFails).records =
      some "answer for AAAA" ∧
    assocLookup "MX" (ReconTools.dns_info "example.com" dnsEnvAFails).records =
      some "answer for MX" ∧
    assocLookup "NS" (ReconTools.dns_info "example.com" dnsEnvAFails).records =
      some "answer for NS" ∧
    assocLookup "TXT" (ReconTools.dns_info "example.com" dnsEnvAFails).records =
      some "answer for TXT" ∧
    assocLookup "CNAME" (ReconTools.dns_info "example.com" dnsEnvAFails).records =
      some "answer for CNAME" := by
  decide

/-- Claim C8 (counterexample): the line consisting solely of the path
token, although it begins with a slash, records no entry because the
source demands at least two whitespace tokens; and for the common spaced
form the tallied status-code string is empty - the second token is the
literal open-parenthesis text, which is stored as the entry status, while
the digits sit in the third token and are never extracted. -/
theorem gobuster_claim_counterexample :
    (ReconTools.parse_gobuster_output "/admin").found_paths = [] ∧
    (ReconTools.parse_gobuster_output "/admin (Status: 200)").status_codes = [""] ∧
    (ReconTools.parse_gobuster_output "/admin (Status: 200)").found_paths =
      [⟨"/admin", some "(Status:", "/admin (Status: 200)"⟩] := by
  decide

/-- Claim C8 (amended): the parser records an entry exactly for the lines
that begin with a slash or with http AND split into at least two
whitespace tokens; the entry status is the second token when that token
begins with the literal status marker and is absent otherwise; and the
tallied status-code string is the second token with the marker and every
closing parenthesis removed, which for the spaced form with the digits in
a separate token is the empty string. -/
theorem parse_gobuster_characterization (output : String) :
    (ReconTools.parse_gobuster_output output).found_paths =
      (pySplitLines output).filterMap gobusterLineEntry ∧
    (ReconTools.parse_gobuster_output output).status_codes =
      (pySplitLines output).filterMap gobusterLineCode := by
  simpa [ReconTools.parse_gobuster_output] using
    gobuster_fold_spec (pySplitLines output) ⟨[], []⟩

/- ====================================================================
   Pipeline field characterization (helper)
   ==================================================================== -/

theorem run_scan_fields (target : String) (scan_types : List String) (env : ToolEnv) :
    ((run_comprehensive_scan target scan_types env).gobuster =
      if scan_types.contains "gobuster" &&
          (pyStartswith target "http://" || pyStartswith target "https://") then
        some env.gobusterOut else none) ∧
    ((run_comprehensive_scan target scan_types env).subfinder =
      if scan_types.contains "subfinder" && !(pyStartswith target "http") then
        some env.subfinderOut else none) ∧
    ((run_comprehensive_scan target scan_types env).httpx =
      if scan_types.contains "subfinder" && !(pyStartswith target "http") then
        match env.subfinderOut.parsed with
        | some p => if env.subfinderOut.success && !p.subdomains.isEmpty then
            some (env.httpxOut (p.subdomains.take 50)) else none
        | none => none
      else none) := by
  unfold run_comprehensive_scan
  cases h3 : scan_types.contains "gobuster" &&
    (pyStartswith target "http://" || pyStartswith target "https://") <;>
  cases h4 : scan_types.contains "subfinder" && !(pyStartswith target "http") <;>
  cases hp : env.subfinderOut.parsed <;>
    simp_all [apply_ite ScanResultsRec.gobuster, apply_ite ScanResultsRec.subfinder,
      apply_ite ScanResultsRec.httpx]

/-- Claim C4 (counterexample): the target httpfoo.com carries no scheme
separator at all, yet with both enumeration tools requested NEITHER step
runs: the directory gate tests for the http:// or https:// literal
prefixes and the subdomain gate tests for the bare http prefix, which
this target has. No single looks-like-a-URL predicate can make the two
if-and-only-if conditions of the claim hold simultaneously here, since
the claim forces subdomain enumeration to run whenever directory
enumeration is skipped for lack of a scheme. -/
theorem scan_gating_counterexample :
    (run_comprehensive_scan "httpfoo.com" ["gobuster", "subfinder"] toolEnvEx).gobuster = none ∧
    (run_comprehensive_scan "httpfoo.com" ["gobuster", "subfinder"] toolEnvEx).subfinder = none := by
  decide

/-- Claim C4 (amended): directory enumeration runs exactly when requested
and the target starts with the literal prefix http:// or https://, and
subdomain enumeration runs exactly when requested and the target does not
start with the literal prefix http; in particular, for the scenario
target with an explicit scheme and both tools requested, directory
enumeration runs while subdomain enumeration does not. -/
theorem scan_gating_amended (target : String) (scan_types : List String) (env : ToolEnv) :
    ((run_comprehensive_scan target scan_types env).gobuster.isSome =
      (scan_types.contains "gobuster" &&
        (pyStartswith target "http://" || pyStartswith target "https://"))) ∧
    ((run_comprehensive_scan target scan_types env).subfinder.isSome =
      (scan_types.contains "subfinder" && !(pyStartswith target "http"))) ∧
    ((run_comprehensive_scan "http://example.com" ["gobuster", "subfinder"] env).gobuster =
      some env.gobusterOut ∧
     (run_comprehensive_scan "http://example.com" ["gobuster", "subfinder"] env).subfinder =
      none) := by
  refine ⟨?_, ?_, ?_, ?_⟩
  · rw [(run_scan_fields target scan_types env).1]
    cases h : scan_types.contains "gobuster" &&
      (pyStartswith target "http://" || pyStartswith target "https://") <;> simp [h]
  · rw [(run_scan_fields target scan_types env).2.1]
    cases h : scan_types.contains "subfinder" && !(pyStartswith target "http") <;> simp [h]
  · have hg : (["gobuster", "subfinder"].contains "gobuster" &&
        (pyStartswith "http://example.com" "http://" ||
         pyStartswith "http://example.com" "https://")) = true := by decide
    rw [(run_scan_fields "http://example.com" ["gobuster", "subfinder"] env).1, hg]
    simp
  · have hs : (["gobuster", "subfinder"].contains "subfinder" &&
        !(pyStartswith "http://example.com" "http")) = false := by decide
    rw [(run_scan_fields "http://example.com" ["gobuster", "subfinder"] env).2.1, hs]
    simp

/-- Claim C5: in a comprehensive scan whose subdomain-enumeration step
runs, when that step succeeds with a non-empty subdomain list the
pipeline automatically probes the first 50 discovered subdomains with
httpx and the aggregate carries the probing result, with no separate
request gating the fan-out; and the fan-out does not happen when the
enumeration fails or yields no subdomains. -/
theorem subfinder_httpx_fanout (target : String) (scan_types : List String) (env : ToolEnv)
    (hreq : scan_types.contains "subfinder" = true)
    (hshape : pyStartswith target "http" = false) :
    (∀ p, env.subfinderOut.parsed = some p → env.subfinderOut.success = true →
      p.subdomains ≠ [] →
      (run_comprehensive_scan target scan_types env).httpx =
        some (env.httpxOut (p.subdomains.take 50)) ∧
      (p.subdomains.take 50).length ≤ 50) ∧
    (env.subfinderOut.success = false →
      (run_comprehensive_scan target scan_types env).httpx = none) ∧
    (∀ p, env.subfinderOut.parsed = some p → p.subdomains = [] →
      (run_comprehensive_scan target scan_types env).httpx = none) := by
  have hgate : (scan_types.contains "subfinder" && !(pyStartswith target "http")) = true := by
    rw [hreq, hshape]; rfl
  refine ⟨?_, ?_, ?_⟩
  · intro p hp hs hne
    have hcond : (env.subfinderOut.success && !p.subdomains.isEmpty) = true := by
      simp [hs, hne]
    constructor
    · rw [(run_scan_fields target scan_types env).2.2, hgate, hp]
      simp [hcond]
    · simp [List.length_take]
  · intro hs
    rw [(run_scan_fields target scan_types env).2.2, hgate]
    cases hp : env.subfinderOut.parsed with
    | none => simp
    | some p => simp [hs]
  · intro p hp hempty
    rw [(run_scan_fields target scan_types env).2.2, hgate, hp]
    simp [hempty]

/-- Witness for subfinder_httpx_fanout: the scenario run with target
example.com and only subfinder requested, where enumeration yields two
subdomains, carries an httpx result for exactly those two hosts. -/
theorem subfinder_httpx_fanout_witness :
    (run_comprehensive_scan "example.com" ["subfinder"] toolEnvEx).httpx =
      some (toolEnvEx.httpxOut ["a.example.com", "b.example.com"]) := by
  exact ((subfinder_httpx_fanout "example.com" ["subfinder"] toolEnvEx
    (by decide) (by decide)).1 ⟨["a.example.com", "b.example.com"], 2⟩
    rfl rfl (by decide)).1

/-- Claim C6 (counterexample): the registry state in which the aggregate
is already stored while the job status is still running is reachable: it
is the state between the aggregate write and the status write that finish
the pipeline, and a concurrent status or results reader can observe it. -/
theorem job_aggregate_running_reachable :
    JobReachable ⟨JobStatus.running, true⟩ ∧
    JobStatus.running ≠ JobStatus.completed := by
  exact ⟨JobReachable.step JobReachable.init JobStep.storeAggregate, by decide⟩

/-- Claim C6 (amended): in every reachable registry state, a completed
status implies the aggregate is stored, and a stored aggregate implies
the status is completed except in the single intermediate state between
the aggregate write and the status write. -/
theorem job_aggregate_completed_invariant (s : JobState) (h : JobReachable s) :
    (s.status = JobStatus.completed → s.resultStored = true) ∧
    (s.resultStored = true → s.status = JobStatus.completed ∨
      s = ⟨JobStatus.running, true⟩) := by
  induction h with
  | init => simp
  | step hr hstep ih => cases hstep <;> simp

/-- Witness for job_aggregate_completed_invariant at the completed state,
reached by the two finishing writes in source order. -/
theorem job_aggregate_completed_invariant_witness :
    (⟨JobStatus.completed, true⟩ : JobState).resultStored = true := by
  exact (job_aggregate_completed_invariant ⟨JobStatus.completed, true⟩
    (JobReachable.step (JobReachable.step JobReachable.init JobStep.storeAggregate)
      JobStep.markCompleted)).1 rfl

/- ====================================================================
   Cache-hit aliasing (helper)
   ==================================================================== -/

theorem writeThrough_set_eq {α : Type} (m : CacheManager α) (command : List String)
    (r r2 : α) (T : Nat) :
    cacheWriteThrough (CacheManager.set m command r T) command r2 =
      { m with cache := ((CacheManager.get_key command, ⟨r2, T⟩) ::
          (assocErase (CacheManager.get_key command) m.cache).map
            (fun p => if p.1 = CacheManager.get_key command then
              (p.1, ⟨r2, p.2.timestamp⟩) else p)) } := by
  simp [cacheWriteThrough, CacheManager.set, assocInsert]

theorem get_writeThrough_set {α : Type} (m : CacheManager α) (command : List String)
    (r r2 : α) (T now2 : Nat) (h : now2 - T < m.ttl) :
    CacheManager.get (cacheWriteThrough (CacheManager.set m command r T) command r2)
        command now2 =
      (some r2,
       cacheWriteThrough (CacheManager.set m command r T) command r2) := by
  rw [writeThrough_set_eq]
  simp [CacheManager.get, assocLookup, h]

theorem get_after_set_hit {α : Type} (m : CacheManager α) (command : List String)
    (r : α) (T now : Nat) (h : now - T < m.ttl) :
    CacheManager.get (CacheManager.set m command r T) command now =
      (some r, CacheManager.set m command r T) := by
  simp [CacheManager.get, CacheManager.set, assocLookup_insert_self, h]

/-- Claim C9 (counterexample): an outcome stored in the cache without the
cached flag is returned by the very next cache hit WITH the flag set, a
value different from the one that was stored - the adapter mutates the
outcome dict after its construction, through the reference the cache
still holds. -/
theorem outcome_mutation_counterexample :
    (nmapCheckCache
      (CacheManager.set ({ cache := [], ttl := 3600 } : CacheManager NmapToolResult)
        ["nmap", "-T4", "-F", "example.com"] sampleNmapResult 0)
      ["nmap", "-T4", "-F", "example.com"] 1).1 =
      some { sampleNmapResult with cached := true } ∧
    ({ sampleNmapResult with cached := true } : NmapToolResult) ≠ sampleNmapResult := by
  decide

/-- Claim C9 (amended): on a cache hit the adapter returns the stored
outcome with the cached flag set to true, and the stored entry receives
the same mutation through the shared reference, so any further hit keeps
returning that same value: repeated lookups agree with each other but
differ from the outcome as first stored, by exactly the cached flag. -/
theorem outcome_cached_flag_mutation (m : CacheManager NmapToolResult)
    (command : List String) (r : NmapToolResult) (T now now2 : Nat)
    (h1 : now - T < m.ttl) (h2 : now2 - T < m.ttl) :
    (nmapCheckCache (CacheManager.set m command r T) command now).1 =
      some { r with cached := true } ∧
    (nmapCheckCache
        (nmapCheckCache (CacheManager.set m command r T) command now).2
        command now2).1 =
      (nmapCheckCache (CacheManager.set m command r T) command now).1 := by
  have hget1 := get_after_set_hit m command r T now h1
  have hget2 := get_writeThrough_set m command r { r with cached := true } T now2 h2
  constructor
  · unfold nmapCheckCache
    rw [hget1]
  · unfold nmapCheckCache
    rw [hget1]
    show (match CacheManager.get
        (cacheWriteThrough (CacheManager.set m command r T) command
          { r with cached := true }) command now2 with
      | (some r0, m2) =>
          (some { r0 with cached := true },
           cacheWriteThrough m2 command { r0 with cached := true })
      | (none, m2) => ((none : Option NmapToolResult), m2)).1 =
      some { r with cached := true }
    rw [hget2]

/-- Witness for outcome_cached_flag_mutation on a singleton cache with
ttl 3600: the hit at time 1 returns the stored result with the cached
flag set, and the hit at time 2 returns the same value again. -/
theorem outcome_cached_flag_mutation_witness :
    (nmapCheckCache
      (CacheManager.set ({ cache := [], ttl := 3600 } : CacheManager NmapToolResult)
        ["nmap", "scanme.org"] sampleNmapResult 0) ["nmap", "scanme.org"] 1).1 =
      some { sampleNmapResult with cached := true } ∧
    (nmapCheckCache
      (nmapCheckCache
        (CacheManager.set ({ cache := [], ttl := 3600 } : CacheManager NmapToolResult)
          ["nmap", "scanme.org"] sampleNmapResult 0) ["nmap", "scanme.org"] 1).2
      ["nmap", "scanme.org"] 2).1 =
      (nmapCheckCache
        (CacheManager.set ({ cache := [], ttl := 3600 } : CacheManager NmapToolResult)
          ["nmap", "scanme.org"] sampleNmapResult 0) ["nmap", "scanme.org"] 1).1 := by
  exact outcome_cached_flag_mutation
    ({ cache := [], ttl := 3600 } : CacheManager NmapToolResult)
    ["nmap", "scanme.org"] sampleNmapResult 0 1 2 (by norm_num) (by norm_num)
